import Mathlib

/-!
Shallow embedding of the `golem-ai` JavaScript executor core, as emitted by
`src/exec/javascript_executor_generator.py` (the generated `exec-javascript/src/lib.rs`
and `shared/src/lib.rs`).  The embedding models:

  * the WIT-level data shapes (`Limits`, `StageResult`, `Result_`, `File`, `Error`,
    `Language`) — the type declarations live in the generated WIT bindings, so their
    variant lists are modelled from the spec taxonomy; the constructors actually used
    by the generated code (`Error::Internal`) are taken from the source;
  * `JavaScriptExecutor` (`Runtime`, `Context::full`, `execute_code`);
  * `ExecutionSession` (`new`, `upload_file`, `run_code`);
  * the boundary `Guest::run`;
  * `SessionManager` (`new`, `create_session`, `get_session`) from the shared library.

External, non-deterministic behaviour (QuickJS evaluation, fallible `Runtime::new` /
`Context::full`, wall-clock measurement) is supplied through an explicit oracle
(`EngineOracle`), so every definition stays executable and the control flow of the
source is reproduced exactly.
-/

namespace Exec

/-- Limits record: `{time_ms: option<u64>, memory_bytes: option<u64>}`. -/
structure Limits where
  time_ms : Option Nat
  memory_bytes : Option Nat
deriving DecidableEq, Repr

/-- One stage (compile or run) of an invocation, as in the WIT `stage-result`. -/
structure StageResult where
  stdout : String
  stderr : String
  exit_code : Option Int
  signal : Option Int
deriving DecidableEq, Repr

/-- Top-level result record `Result_` of the generated code. -/
structure Result_ where
  compile : Option StageResult
  run : StageResult
  time_ms : Option Nat
  memory_bytes : Option Nat
deriving DecidableEq, Repr

/-- A named file with byte content (`File { name, content: Vec<u8> }`). -/
structure File where
  name : String
  content : List Nat
deriving DecidableEq, Repr

/-- Modelled from the spec: the service `Error` taxonomy of section 7
(ConfigurationError, NotFound, DecodeError, HostInternal/Internal, Timeout).
The WIT declaration of this enum is outside the generated sources; the generated
code itself only ever constructs the `Internal` variant. -/
inductive Error where
  | ConfigurationError : String → Error
  | NotFound : String → Error
  | DecodeError : String → Error
  | Internal : String → Error
  | Timeout : String → Error
deriving DecidableEq, Repr

/-- Modelled from the spec: the WIT `language` enum dispatched by the host
(the generated backend is the JavaScript one). -/
inductive Language where
  | javascript
  | python
deriving DecidableEq, Repr

/-- Strict UTF-8 decoding of a byte list to a list of code points, mirroring the
validation performed by Rust `String::from_utf8`: continuation bytes must be in
`0x80..0xBF`, overlong encodings, surrogate code points and code points above
`0x10FFFF` are rejected. -/
def utf8Decode : List Nat → Option (List Nat)
  | [] => some []
  | b :: rest =>
    if b < 0x80 then
      (utf8Decode rest).map (fun cps => b :: cps)
    else if b < 0xC2 then none
    else if b < 0xE0 then
      match rest with
      | c1 :: r =>
        if 0x80 ≤ c1 ∧ c1 < 0xC0 then
          (utf8Decode r).map (fun cps => ((b - 0xC0) * 0x40 + (c1 - 0x80)) :: cps)
        else none
      | [] => none
    else if b < 0xF0 then
      match rest with
      | c1 :: c2 :: r =>
        if (0x80 ≤ c1 ∧ c1 < 0xC0) ∧ (0x80 ≤ c2 ∧ c2 < 0xC0) then
          let cp := (b - 0xE0) * 0x1000 + (c1 - 0x80) * 0x40 + (c2 - 0x80)
          if cp < 0x800 ∨ (0xD800 ≤ cp ∧ cp ≤ 0xDFFF) then none
          else (utf8Decode r).map (fun cps => cp :: cps)
        else none
      | _ => none
    else if b < 0xF5 then
      match rest with
      | c1 :: c2 :: c3 :: r =>
        if (0x80 ≤ c1 ∧ c1 < 0xC0) ∧ ((0x80 ≤ c2 ∧ c2 < 0xC0) ∧ (0x80 ≤ c3 ∧ c3 < 0xC0)) then
          let cp := (b - 0xF0) * 0x40000 + (c1 - 0x80) * 0x1000 + (c2 - 0x80) * 0x40 + (c3 - 0x80)
          if cp < 0x10000 ∨ 0x10FFFF < cp then none
          else (utf8Decode r).map (fun cps => cp :: cps)
        else none
      | _ => none
    else none

/-- Rust `String::from_utf8(bytes)`: the decoded string, or a decode-failure
message (mapped into errors by the callers via `e.to_string()`). -/
def string_from_utf8 (bytes : List Nat) : Except String String :=
  match utf8Decode bytes with
  | some cps => Except.ok (String.mk (cps.map Char.ofNat))
  | none => Except.error "invalid utf-8"

/-- Assoc-list model of `std::collections::HashMap` insertion: unique keys,
`insert` replaces any previous binding of the key. -/
def hmInsert {α : Type} (m : List (String × α)) (k : String) (v : α) : List (String × α) :=
  (k, v) :: m.filter (fun p => !(p.1 == k))

/-- Assoc-list model of `HashMap::get`. -/
def hmGet {α : Type} (m : List (String × α)) (k : String) : Option α :=
  m.lookup k

/-- Number of bindings a key has in the mapping (1 everywhere for a `HashMap`;
used to state the no-duplicate-entries property). -/
def countKey {α : Type} (m : List (String × α)) (k : String) : Nat :=
  (m.filter (fun p => p.1 == k)).length

/-- Outcome of one QuickJS evaluation of a source string (`ctx.eval` plus the
rendering of the resulting value at lines 58-69 of the generated code): either
the rendered value, or the raised fault rendered as text (`rquickjs::Error`). -/
inductive EvalOutcome where
  | ok : String → EvalOutcome
  | err : String → EvalOutcome
deriving DecidableEq, Repr

/-- Oracle supplying the behaviour of the external substrate for one call:
whether `Runtime::new()` fails (`runtime_err`), whether `Context::full` fails
(`ctx_err`), what `ctx.eval` produces on a given source (`eval_code`), and the
wall-clock duration measured by `start_time.elapsed()` (`elapsed_ms`).  The
generated code is deterministic given these. -/
structure EngineOracle where
  runtime_err : Option String
  ctx_err : Option String
  eval_code : String → EvalOutcome
  elapsed_ms : Nat

/-- A QuickJS `Runtime` instance; `rid` is the identity of the allocation, so
that reuse of one instance across calls is observable in the model. -/
structure Runtime where
  rid : Nat
deriving DecidableEq, Repr

/-- `Runtime::new()` drawn from a fresh-identity supply. -/
def Runtime.new (fresh : Nat) : Runtime × Nat :=
  ({ rid := fresh }, fresh + 1)

/-- An execution `Context` bound to the runtime it was created on
(`Context::full(&self.runtime)`). -/
structure Context where
  runtime : Runtime
deriving DecidableEq, Repr

/-- `Context::full`: a context on the given runtime. -/
def Context.full (rt : Runtime) : Context :=
  { runtime := rt }

/-- `SessionData` of the shared library: language, files, working_dir,
created_at (`Instant` modelled as an abstract timestamp). -/
structure SessionData where
  language : String
  files : List (String × List Nat)
  working_dir : String
  created_at : Nat
deriving DecidableEq, Repr

/-- `SessionManager` of the shared library: a map from session id to data. -/
structure SessionManager where
  sessions : List (String × SessionData)
deriving DecidableEq, Repr

/-- `SessionManager::new()`. -/
def SessionManager.new : SessionManager :=
  { sessions := [] }

/-- `SessionManager::create_session(&mut self, id, language) -> Result<()>`:
builds a fresh `SessionData` with empty files, working_dir "/" and
`created_at = Instant::now()` (the `now` argument), inserts it under `id`
(replacing any existing entry, `HashMap::insert`), and returns `Ok(())`.
The model returns the mutated manager together with the `Result` value. -/
def SessionManager.create_session (m : SessionManager) (now : Nat) (id language : String) :
    SessionManager × Except String Unit :=
  let session : SessionData :=
    { language := language, files := [], working_dir := "/", created_at := now }
  ({ sessions := hmInsert m.sessions id session }, Except.ok ())

/-- `SessionManager::get_session(&self, id)`. -/
def SessionManager.get_session (m : SessionManager) (id : String) : Option SessionData :=
  hmGet m.sessions id

/-- `SessionManager::remove_session(&mut self, id)`: the removed data, if any,
and the mutated manager. -/
def SessionManager.remove_session (m : SessionManager) (id : String) :
    SessionManager × Option SessionData :=
  ({ sessions := m.sessions.filter (fun p => !(p.1 == id)) }, hmGet m.sessions id)

/-- The `JavaScriptExecutor` struct: one `Runtime` plus a `SessionManager`. -/
structure JavaScriptExecutor where
  runtime : Runtime
  session_manager : SessionManager

/-- `JavaScriptExecutor::new()`: allocates a fresh `Runtime` and an empty
`SessionManager` (fresh-identity supply threaded through). -/
def JavaScriptExecutor.new (fresh : Nat) : JavaScriptExecutor × Nat :=
  let rt := Runtime.new fresh
  ({ runtime := rt.1, session_manager := SessionManager.new }, rt.2)

/-- The timeout computed at lines 44-48 of `execute_code`:
`limits.as_ref().and_then(|l| l.time_ms).map(Duration::from_millis)
.unwrap_or(Duration::from_secs(5))`, expressed in milliseconds. -/
def effective_timeout_ms (limits : Option Limits) : Nat :=
  (limits.bind (fun l => l.time_ms)).getD 5000

/-- `JavaScriptExecutor::execute_code(&self, code, limits)`: computes the
timeout, builds `Context::full(&self.runtime)` (failure = host error), runs the
code, and packages either branch of the `match` at lines 76-107 as `Ok(Result_)`
with `time_ms = elapsed` and `memory_bytes = None`.  The computed timeout is
bound but — exactly as in the source — never consulted afterwards. -/
def JavaScriptExecutor.execute_code (self : JavaScriptExecutor) (o : EngineOracle)
    (code : String) (limits : Option Limits) : Except String Result_ :=
  let _timeout_ms := effective_timeout_ms limits
  match o.ctx_err with
  | some e => Except.error e
  | none =>
    let _context := Context.full self.runtime
    match o.eval_code code with
    | EvalOutcome.ok output =>
      Except.ok
        { compile := none
          run := { stdout := output, stderr := "", exit_code := some 0, signal := none }
          time_ms := some o.elapsed_ms
          memory_bytes := none }
    | EvalOutcome.err e =>
      Except.ok
        { compile := none
          run := { stdout := "", stderr := "JavaScript Error: " ++ e, exit_code := some 1,
                   signal := none }
          time_ms := some o.elapsed_ms
          memory_bytes := none }

/-- The `ExecutionSession` struct: id, language, files, working_dir and the
executor constructed once, at session creation. -/
structure ExecutionSession where
  id : String
  language : Language
  files : List (String × List Nat)
  working_dir : String
  executor : JavaScriptExecutor

/-- `ExecutionSession::new(language)`: builds one `JavaScriptExecutor` (stored
for the whole lifetime of the session), a fresh uuid (`uuid` argument), empty
files and working_dir "/". -/
def ExecutionSession.new (language : Language) (uuid : String) (fresh : Nat) :
    ExecutionSession × Nat :=
  let ex := JavaScriptExecutor.new fresh
  ({ id := uuid, language := language, files := [], working_dir := "/", executor := ex.1 },
   ex.2)

/-- `ExecutionSession::upload_file(&mut self, file)`: `self.files.insert(name,
content)`; always returns `Ok(())` in the source, so the model is total. -/
def ExecutionSession.upload_file (s : ExecutionSession) (file : File) : ExecutionSession :=
  { s with files := hmInsert s.files file.name file.content }

/-- `ExecutionSession::run_code(&self, entrypoint, args, limits)`: looks the
entry point up in `self.files` (textual "File not found" error when absent),
decodes it with `String::from_utf8`, and delegates to
`self.executor.execute_code`. -/
def ExecutionSession.run_code (s : ExecutionSession) (o : EngineOracle)
    (entrypoint : String) (_args : List String) (limits : Option Limits) :
    Except String Result_ :=
  match hmGet s.files entrypoint with
  | none => Except.error ("File not found: " ++ entrypoint)
  | some code =>
    match string_from_utf8 code with
    | Except.error e => Except.error e
    | Except.ok code_str => s.executor.execute_code o code_str limits

/-- The runtime on which a `run_code` invocation against session `s` evaluates:
`run_code` (line 160) calls `self.executor.execute_code`, which builds its
context on `self.runtime` (line 50) — the same stored instance for every
invocation, whatever the entry point. -/
def ExecutionSession.runtime_for_run (s : ExecutionSession) (_entrypoint : String) : Runtime :=
  s.executor.runtime

namespace Guest

/-- The boundary `Guest::run(lang, files, stdin, args, env, constraints)`:
constructs a fresh `JavaScriptExecutor` (construction failure →
`Error::Internal`), takes `files.first()` as the entry file (`Internal
"No files provided"` when the list is empty), decodes it with
`String::from_utf8` (failure mapped to `Error::Internal`), and delegates to
`execute_code` (its failure also mapped to `Error::Internal`).  `stdin`, `args`
and `env` are parameters of the signature that the body never reads. -/
def run (o : EngineOracle) (fresh : Nat) (_lang : Language) (files : List File)
    (_stdin : Option String) (_args : List String) (_env : List (String × String))
    (constraints : Option Limits) : Except Error Result_ :=
  match o.runtime_err with
  | some e => Except.error (Error.Internal e)
  | none =>
    let executor := (JavaScriptExecutor.new fresh).1
    match files with
    | main_file :: _ =>
      match string_from_utf8 main_file.content with
      | Except.error e => Except.error (Error.Internal e)
      | Except.ok code =>
        match executor.execute_code o code constraints with
        | Except.error e => Except.error (Error.Internal e)
        | Except.ok r => Except.ok r
    | [] => Except.error (Error.Internal "No files provided")

end Guest

/-- Concrete oracle: healthy substrate, every evaluation raises "boom",
measured wall time 7 ms. -/
def oracleBoom : EngineOracle :=
  { runtime_err := none, ctx_err := none,
    eval_code := fun _ => EvalOutcome.err "boom", elapsed_ms := 7 }

/-- Concrete oracle: healthy substrate, every evaluation yields "1",
measured wall time 3 ms. -/
def oracleOkOne : EngineOracle :=
  { runtime_err := none, ctx_err := none,
    eval_code := fun _ => EvalOutcome.ok "1", elapsed_ms := 3 }

/-- A freshly created session with no uploaded files. -/
def emptySession : ExecutionSession :=
  (ExecutionSession.new Language.javascript "sid" 0).1

/-- Looking a key up right after a `HashMap`-style insert of that key yields the
inserted value. -/
theorem hmGet_hmInsert_self {α : Type} (m : List (String × α)) (k : String) (v : α) :
    hmGet (hmInsert m k v) k = some v := by
  simp [hmGet, hmInsert, List.lookup]

/-- Filtering for a key after filtering it away yields nothing. -/
theorem filter_key_of_filter_not_key {α : Type} (m : List (String × α)) (k : String) :
    (m.filter (fun p => !(p.1 == k))).filter (fun p => p.1 == k) = [] := by
  induction m with
  | nil => rfl
  | cons p t ih =>
    cases hb : (p.1 == k) <;> simp [List.filter_cons, hb, ih]

/-- After a `HashMap`-style insert, the key has exactly one binding. -/
theorem countKey_hmInsert_self {α : Type} (m : List (String × α)) (k : String) (v : α) :
    countKey (hmInsert m k v) k = 1 := by
  simp [countKey, hmInsert, List.filter_cons, filter_key_of_filter_not_key]

/-- C1: for every program whose execution raises a fault (the evaluation of the
decoded entry file yields an error), the boundary `Guest::run` returns
`Ok(Result)` — never the service `Error` variant — with `run.exit_code` equal
to 1 (hence non-zero) and `run.stderr` containing the fault text. -/
theorem c1_program_fault_returns_ok_nonzero_exit (o : EngineOracle) (fresh : Nat)
    (lang : Language) (f : File) (rest : List File) (stdin : Option String)
    (args : List String) (env : List (String × String)) (lim : Option Limits)
    (code msg : String)
    (hrt : o.runtime_err = none) (hctx : o.ctx_err = none)
    (hdec : string_from_utf8 f.content = Except.ok code)
    (hev : o.eval_code code = EvalOutcome.err msg) :
    ∃ r : Result_,
      Guest.run o fresh lang (f :: rest) stdin args env lim = Except.ok r ∧
      r.run.exit_code = some 1 ∧ r.run.exit_code ≠ some 0 ∧
      ∃ p, r.run.stderr = p ++ msg := by
  refine ⟨{ compile := none,
            run := { stdout := "", stderr := "JavaScript Error: " ++ msg,
                     exit_code := some 1, signal := none },
            time_ms := some o.elapsed_ms, memory_bytes := none },
          ?_, rfl, by simp, ⟨"JavaScript Error: ", rfl⟩⟩
  simp [Guest.run, hrt, hdec, JavaScriptExecutor.execute_code, hctx, hev]

/-- C1 witness: a concrete call whose program raises "boom" comes back as an
`Ok` result with exit code 1 and the fault text inside stderr. -/
theorem c1_witness_concrete_fault :
    ∃ r : Result_,
      Guest.run oracleBoom 0 Language.javascript [{ name := "main.js", content := [] }]
        none [] [] none = Except.ok r ∧
      r.run.exit_code = some 1 ∧ r.run.exit_code ≠ some 0 ∧
      ∃ p, r.run.stderr = p ++ "boom" :=
  c1_program_fault_returns_ok_nonzero_exit oracleBoom 0 Language.javascript
    { name := "main.js", content := [] } [] none [] [] none "" "boom" rfl rfl rfl rfl

/-- C2 evidence: `execute_code` is entirely independent of the supplied limits.
The timeout computed at lines 44-48 of the generated code is never consulted
afterwards, so there is no mechanism by which the time budget could preempt a
running evaluation — a non-terminating program is never cancelled at the
timeout boundary. -/
theorem c2_execute_code_ignores_limits (self : JavaScriptExecutor) (o : EngineOracle)
    (code : String) (l1 l2 : Option Limits) :
    self.execute_code o code l1 = self.execute_code o code l2 := rfl

/-- C3 counterexample: with an empty file set every requested entry-point name
is absent, so the claim demands a NotFound failure; the code returns
`Error::Internal "No files provided"` instead. -/
theorem c3_counterexample_empty_files_internal_not_notfound :
    Guest.run oracleBoom 0 Language.javascript [] none [] [] none =
      Except.error (Error.Internal "No files provided") := rfl

/-- C3 amended: the stateless `run` takes the first supplied file as the entry
point regardless of how many files are supplied (no entry point is ever named
explicitly), returns `Internal "No files provided"` — not NotFound — when the
file list is empty, and in fact never fails with NotFound at all; the
session-level `run_code` fails with the textual error "File not found: ..."
(not a typed NotFound service error) exactly when the entry point is absent
from the session's files. -/
theorem c3_entrypoint_resolution_amended :
    (∀ (o : EngineOracle) (fresh : Nat) (lang : Language) (stdin : Option String)
        (args : List String) (env : List (String × String)) (lim : Option Limits),
        o.runtime_err = none →
        Guest.run o fresh lang [] stdin args env lim =
          Except.error (Error.Internal "No files provided")) ∧
    (∀ (o : EngineOracle) (fresh : Nat) (lang : Language) (f : File) (rest : List File)
        (stdin : Option String) (args : List String) (env : List (String × String))
        (lim : Option Limits),
        Guest.run o fresh lang (f :: rest) stdin args env lim =
          Guest.run o fresh lang [f] stdin args env lim) ∧
    (∀ (o : EngineOracle) (fresh : Nat) (lang : Language) (files : List File)
        (stdin : Option String) (args : List String) (env : List (String × String))
        (lim : Option Limits) (m : String),
        Guest.run o fresh lang files stdin args env lim ≠
          Except.error (Error.NotFound m)) ∧
    (∀ (s : ExecutionSession) (o : EngineOracle) (entry : String) (args : List String)
        (lim : Option Limits),
        hmGet s.files entry = none →
        s.run_code o entry args lim = Except.error ("File not found: " ++ entry)) := by
  refine ⟨?_, ?_, ?_, ?_⟩
  · intro o fresh lang stdin args env lim hrt
    simp [Guest.run, hrt]
  · intro o fresh lang f rest stdin args env lim
    rfl
  · intro o fresh lang files stdin args env lim m
    unfold Guest.run
    cases hr : o.runtime_err with
    | some e => simp
    | none =>
      cases files with
      | nil => simp
      | cons f rest =>
        cases hd : string_from_utf8 f.content with
        | error e => simp [hd]
        | ok code =>
          cases hx : (JavaScriptExecutor.new fresh).1.execute_code o code lim with
          | error e => simp [hd, hx]
          | ok r => simp [hd, hx]
  · intro s o entry args lim h
    simp [ExecutionSession.run_code, h]

/-- C3 witness: the amended theorem applied at concrete inputs — an empty
stateless file set yields the Internal error, and a fresh session with no
files fails `run_code` with the "File not found" text. -/
theorem c3_witness_missing_entrypoint :
    Guest.run oracleBoom 0 Language.javascript [] none [] [] none =
      Except.error (Error.Internal "No files provided") ∧
    emptySession.run_code oracleBoom "main.js" [] none =
      Except.error ("File not found: " ++ "main.js") :=
  ⟨c3_entrypoint_resolution_amended.1 oracleBoom 0 Language.javascript none [] [] none rfl,
   c3_entrypoint_resolution_amended.2.2.2 emptySession oracleBoom "main.js" [] none rfl⟩

/-- C4: when `limits` is absent entirely, or present with `time_ms` omitted,
the time budget computed by `execute_code` (lines 44-48) is exactly 5000 ms
(`Duration::from_secs(5)`). -/
theorem c4_default_time_budget_5000ms (limits : Option Limits)
    (h : limits = none ∨ ∃ l, limits = some l ∧ l.time_ms = none) :
    effective_timeout_ms limits = 5000 := by
  rcases h with h | ⟨l, rfl, hl⟩
  · subst h; rfl
  · simp [effective_timeout_ms, hl]

/-- C4 witness: the default budget at the concrete input `limits = none`. -/
theorem c4_witness_absent_limits : effective_timeout_ms none = 5000 :=
  c4_default_time_budget_5000ms none (Or.inl rfl)

/-- C5 evidence: a session stores one `JavaScriptExecutor` built at creation,
and every `run_code` invocation evaluates on that stored executor's runtime
(`Context::full(&self.runtime)`): two run invocations against the same session
always share the interpreter runtime instance — the very one allocated when
the session was created — contradicting the per-call-freshness claim. -/
theorem c5_session_runs_share_runtime (lang : Language) (uuid : String) (fresh : Nat)
    (entry1 entry2 : String) :
    (ExecutionSession.new lang uuid fresh).1.runtime_for_run entry1 =
      (ExecutionSession.new lang uuid fresh).1.runtime_for_run entry2 ∧
    (ExecutionSession.new lang uuid fresh).1.runtime_for_run entry1 = { rid := fresh } :=
  ⟨rfl, rfl⟩

/-- C6: uploading a file under a name that already exists overwrites the
previous content — after uploading v1 then v2 under the same name, exactly v2
is retrievable under that name and the mapping holds exactly one binding for
it. -/
theorem c6_upload_last_write_wins_no_duplicates (s : ExecutionSession) (name : String)
    (v1 v2 : List Nat) :
    hmGet ((s.upload_file { name := name, content := v1 }).upload_file
        { name := name, content := v2 }).files name = some v2 ∧
    countKey ((s.upload_file { name := name, content := v1 }).upload_file
        { name := name, content := v2 }).files name = 1 :=
  ⟨hmGet_hmInsert_self _ _ _, countKey_hmInsert_self _ _ _⟩

/-- C7 counterexample: a stateless call whose single entry file is the invalid
UTF-8 byte 0xFF fails with `Error::Internal` carrying the decode-failure text,
not with the DecodeError variant the claim demands. -/
theorem c7_counterexample_invalid_utf8_internal_not_decode :
    Guest.run oracleBoom 0 Language.javascript
        [{ name := "main.js", content := [255] }] none [] [] none =
      Except.error (Error.Internal "invalid utf-8") := rfl

/-- C7 amended: for every stateless run whose entry file content is not valid
UTF-8, the call fails with an `Internal` service error carrying the decode
failure text (`String::from_utf8`'s error mapped through `Error::Internal`),
not with DecodeError. -/
theorem c7_invalid_utf8_fails_internal (o : EngineOracle) (fresh : Nat)
    (lang : Language) (f : File) (rest : List File) (stdin : Option String)
    (args : List String) (env : List (String × String)) (lim : Option Limits) (e : String)
    (hrt : o.runtime_err = none) (hdec : string_from_utf8 f.content = Except.error e) :
    Guest.run o fresh lang (f :: rest) stdin args env lim =
      Except.error (Error.Internal e) := by
  simp [Guest.run, hrt, hdec]

/-- C7 witness: the amended theorem applied to the concrete invalid byte 0xFF. -/
theorem c7_witness_invalid_byte :
    Guest.run oracleBoom 0 Language.javascript
        [{ name := "main.js", content := [255] }] none [] [] none =
      Except.error (Error.Internal "invalid utf-8") :=
  c7_invalid_utf8_fails_internal oracleBoom 0 Language.javascript
    { name := "main.js", content := [255] } [] none [] [] none "invalid utf-8" rfl rfl

/-- C8 counterexample: with `memory_bytes = 1024` configured in the limits, the
result of `execute_code` reports `memory_bytes = None`, not the configured
ceiling the claim demands. -/
theorem c8_counterexample_memory_limit_not_reported :
    (JavaScriptExecutor.new 0).1.execute_code oracleOkOne "1"
        (some { time_ms := none, memory_bytes := some 1024 }) =
      Except.ok
        { compile := none,
          run := { stdout := "1", stderr := "", exit_code := some 0, signal := none },
          time_ms := some 3, memory_bytes := none } := rfl

/-- C8 amended: every successful `execute_code` result has `memory_bytes =
None` — the configured memory ceiling is never surfaced as metadata (both arms
of the match at lines 76-107 set `memory_bytes: None`). -/
theorem c8_result_memory_bytes_always_none (self : JavaScriptExecutor) (o : EngineOracle)
    (code : String) (limits : Option Limits) (r : Result_)
    (h : self.execute_code o code limits = Except.ok r) :
    r.memory_bytes = none := by
  unfold JavaScriptExecutor.execute_code at h
  cases hc : o.ctx_err with
  | some e => simp [hc] at h
  | none =>
    cases hev : o.eval_code code with
    | ok out =>
      simp [hc, hev] at h
      subst h
      rfl
    | err e =>
      simp [hc, hev] at h
      subst h
      rfl

/-- C8 witness: the amended theorem applied at a concrete call configured with
a 1024-byte memory ceiling. -/
theorem c8_witness_memory_none :
    ({ compile := none,
       run := { stdout := "1", stderr := "", exit_code := some 0, signal := none },
       time_ms := some 3, memory_bytes := none } : Result_).memory_bytes = none :=
  c8_result_memory_bytes_always_none (JavaScriptExecutor.new 0).1 oracleOkOne "1"
    (some { time_ms := none, memory_bytes := some 1024 }) _ rfl

/-- C9: the stateless `Guest::run` never consumes `stdin`, `args` or `env` —
two invocations differing only in those arguments return the same value. -/
theorem c9_run_independent_of_stdin_args_env (o : EngineOracle) (fresh : Nat)
    (lang : Language) (files : List File) (s1 s2 : Option String) (a1 a2 : List String)
    (e1 e2 : List (String × String)) (lim : Option Limits) :
    Guest.run o fresh lang files s1 a1 e1 lim =
      Guest.run o fresh lang files s2 a2 e2 lim := rfl

/-- C10: `SessionManager::create_session` always returns `Ok(())` — for every
prior manager state, including one where the id is already registered — and
afterwards the id maps to a fresh session with the given language, empty
files (any previous files discarded), working_dir "/" and the creation
instant. -/
theorem c10_create_session_always_ok_fresh_overwrite (m : SessionManager) (now : Nat)
    (id lang : String) :
    (m.create_session now id lang).2 = Except.ok () ∧
    (m.create_session now id lang).1.get_session id =
      some { language := lang, files := [], working_dir := "/", created_at := now } :=
  ⟨rfl, hmGet_hmInsert_self _ _ _⟩

end Exec
